import Mathlib

/-!
Verification of the protocol orchestration layer of `guardowl/protocols.py`.

The simulation engine (OpenMM) is out of scope: every engine call made by the
protocols is recorded as an explicit event, so that control-flow claims
(which calls happen, in which order, with which arguments) become statements
about event traces.  Geometry for the bond-length scan is embedded over `ℝ`
(the source works with float vectors), string formatting over `String`
mirroring Python f-strings, Python `int` over `ℤ`, and Python exceptions as
an `Option String` error slot: `some msg` means the call raised.
-/

namespace GuardOwl

/-- The `temperature` field of the parameter dataclasses: a Python `int`,
a Python `float`, or a list of `int`s (`Union[int, List[int]]`). -/
inductive TempSpec where
  | int (T : ℤ)
  | float (q : ℚ)
  | list (ts : List ℤ)
deriving DecidableEq

/-- The fields of `StabilityTestParameters` / `MinimizationTestParameters`
that the protocol control flow reads or writes.  The engine-side handles
(`system`, `testsystem`, `platform`, `state_data_reporter`, ...) are opaque
to the orchestration layer and are not modelled. -/
structure Params where
  temperature : TempSpec
  log_file_name : String
  output_folder : String
  ensemble : String
  simulated_annealing : Bool
  protocol_length : ℕ
deriving DecidableEq

/-- One engine call made by a protocol, in program order. -/
inductive PEvent where
  | createSimulation (temperature : TempSpec)
  | setPositions
  | minimizeEnergy
  | step (k : ℕ)
  | setIntegratorTemp (t : ℚ)
  | setBarostatTemp (t : ℚ)
  | writePDB (file : String)
  | getState (positions energy : Bool)
deriving DecidableEq

/-- Result of running a piece of protocol code: the engine calls it issued,
plus `some msg` if it raised a Python exception after those calls. -/
structure Trace where
  events : List PEvent
  error : Option String
deriving DecidableEq

/-- A scalar temperature as an exact rational (Python `int` or `float`);
`none` for a temperature list. -/
def tempAsRat : TempSpec → Option ℚ
  | .int T => some (T : ℚ)
  | .float q => some q
  | .list _ => none

/-- The ten annealing stage temperatures `np.linspace(0, T, 10)`:
stage `i` is `0 + (T - 0) * i / (10 - 1)`. -/
def annealTemps (T : ℚ) : List ℚ :=
  (List.range 10).map fun i : ℕ => T * (i : ℚ) / 9

namespace StabilityTest

/-- The simulated-annealing loop of `StabilityTest._setup_simulation`
(protocols.py lines 159-171): per stage, `sim.step(100)` then
`sim.integrator.setTemperature(temp)`; under the `npt` ensemble the body
then evaluates `parameters.system.getForce(barostate_force_id)` where
`barostate_force_id` is an undefined name, so Python raises `NameError`
before any barostat update. -/
def annealStages (ensemble : String) : List ℚ → Trace
  | [] => ⟨[], none⟩
  | t :: rest =>
    let evs := [PEvent.step 100, PEvent.setIntegratorTemp t]
    if ensemble = "npt" then
      ⟨evs, some "NameError: name barostate_force_id is not defined"⟩
    else
      let r := annealStages ensemble rest
      ⟨evs ++ r.events, r.error⟩

/-- `StabilityTest._setup_simulation` (protocols.py lines 78-173):
create the simulation, set the initial positions, optionally minimize,
and optionally run the simulated-annealing ramp.  The only call sites that
reach the annealing branch carry a scalar temperature, so the temperature
list case of `np.linspace` is left as an error marker. -/
def _setup_simulation (parms : Params) (minimize : Bool) : Trace :=
  let pre := [PEvent.createSimulation parms.temperature, PEvent.setPositions] ++
    (if minimize then [PEvent.minimizeEnergy] else [])
  if parms.simulated_annealing then
    match tempAsRat parms.temperature with
    | some T =>
      let a := annealStages parms.ensemble (annealTemps T)
      ⟨pre ++ a.events, a.error⟩
    | none => ⟨pre, some "TypeError: temperature list in np.linspace"⟩
  else ⟨pre, none⟩

/-- `StabilityTest._run_simulation` (protocols.py lines 34-76): write the
initial PDB snapshot, attach the reporters, and advance the simulation by
`protocol_length` steps. -/
def _run_simulation (parms : Params) : List PEvent :=
  [PEvent.writePDB (parms.output_folder ++ "/" ++ parms.log_file_name ++ ".pdb"),
   PEvent.step parms.protocol_length]

end StabilityTest

/-- Outcome of `PropagationProtocol.perform_stability_test`: the caller's
parameters object as it stands after the call (the source mutates it in
place), the engine calls issued, and the exception raised, if any. -/
structure PropResult where
  parms : Params
  events : List PEvent
  error : Option String
deriving DecidableEq

namespace PropagationProtocol

/-- `PropagationProtocol.perform_stability_test` (protocols.py lines 348-357):
assert the temperature is a Python `int`, suffix the caller's
`log_file_name` in place with `_{temperature}`, set up with minimization,
then run. -/
def perform_stability_test (parms : Params) : PropResult :=
  match parms.temperature with
  | .int T =>
    let parms1 := { parms with log_file_name := parms.log_file_name ++ "_" ++ toString T }
    let s := StabilityTest._setup_simulation parms1 true
    match s.error with
    | some e => ⟨parms1, s.events, some e⟩
    | none => ⟨parms1, s.events ++ StabilityTest._run_simulation parms1, none⟩
  | _ => ⟨parms, [], some "AssertionError: isinstance(parms.temperature, int)"⟩

end PropagationProtocol

/-- One per-temperature run of the multi-temperature protocol: the clone's
temperature, its output name, and the engine calls of that run. -/
structure RunRecord where
  temperature : ℤ
  log_file_name : String
  events : List PEvent
deriving DecidableEq

/-- Outcome of `MultiTemperatureProtocol.perform_stability_test`: the
caller's parameters object after the call, the per-temperature runs in
order, and the exception raised, if any. -/
structure MTResult where
  parms : Params
  runs : List RunRecord
  error : Option String
deriving DecidableEq

namespace MultiTemperatureProtocol

/-- The per-temperature loop of `MultiTemperatureProtocol.perform_stability_test`
(protocols.py lines 426-433): for each temperature, clone the parameters
(`dataclasses.replace`), substitute the temperature, build the clone's name
from the ORIGINAL base name, set up WITHOUT minimization, and run.  An
exception in a run aborts the loop. -/
def loopTemps (parms : Params) : List ℤ → List RunRecord × Option String
  | [] => ([], none)
  | T :: rest =>
    let name := parms.log_file_name ++ "_" ++ toString T ++ "K"
    let clone := { parms with temperature := TempSpec.int T, log_file_name := name }
    let s := StabilityTest._setup_simulation clone false
    match s.error with
    | some e => ([⟨T, name, s.events⟩], some e)
    | none =>
      let r := loopTemps parms rest
      (⟨T, name, s.events ++ StabilityTest._run_simulation clone⟩ :: r.1, r.2)

/-- `MultiTemperatureProtocol.perform_stability_test` (protocols.py lines
406-433): raise `RuntimeError` unless the temperature is a list, otherwise
run once per temperature, in list order.  The caller's object is never
mutated (only clones are). -/
def perform_stability_test (parms : Params) : MTResult :=
  match parms.temperature with
  | .list temps =>
    let r := loopTemps parms temps
    ⟨parms, r.1, r.2⟩
  | _ => ⟨parms, [],
      some "RuntimeError: You need to provide mutliple temperatures to run the MultiTemperatureProtocol."⟩

end MultiTemperatureProtocol

/-- The flags of the state object returned by
`sim.context.getState(getPositions=True, getEnergy=True)`. -/
structure SimState where
  hasPositions : Bool
  hasEnergy : Bool
deriving DecidableEq

/-- Outcome of `MinimizationProtocol.perform_stability_test`. -/
structure MinResult where
  events : List PEvent
  state : Option SimState
  error : Option String
deriving DecidableEq

namespace MinimizationProtocol

/-- `MinimizationProtocol.perform_stability_test` (protocols.py lines
374-392): set up (optionally minimizing), query the state with positions
and energy, write the post-minimization PDB snapshot, and return the state.
No dynamics run outside the optional annealing branch of the setup. -/
def perform_stability_test (parms : Params) (minimize : Bool) : MinResult :=
  let s := StabilityTest._setup_simulation parms minimize
  match s.error with
  | some e => ⟨s.events, none, some e⟩
  | none =>
    ⟨s.events ++ [PEvent.getState true true,
       PEvent.writePDB (parms.output_folder ++ "/" ++ parms.log_file_name ++ ".pdb")],
     some ⟨true, true⟩, none⟩

end MinimizationProtocol

/-!
The minimization benchmark pipeline `run_detect_minimum`
(protocols.py lines 863-1042).  Each candidate molecule of the shuffled
file listing is summarized by the facts the loop body branches on; the
engine-side scoring of a counted molecule is opaque to the control flow.
-/

/-- One candidate molecule of the benchmark loop.  `molGenerated` is
whether `generate_molecule_from_sdf` produced a molecule (a truthy value);
`testsystemOk` is whether `TestsystemFactory().generate_testsystem` ran
without raising `ValueError`. -/
structure Candidate where
  name : String
  molGenerated : Bool
  heavyAtoms : ℕ
  hasUnknownElement : Bool
  testsystemOk : Bool
deriving DecidableEq

/-- Outcome of the benchmark loop: final success counter, scored molecule
names in order, whether the loop exited through the quota `break`, the
exception that aborted it (if any), and the candidates left unprocessed. -/
structure DetectResult where
  counter : ℕ
  scored : List String
  haltedEarly : Bool
  error : Option String
  remaining : List Candidate
deriving DecidableEq

/-- The per-molecule loop of `run_detect_minimum` (protocols.py lines
945-1035), with the code's branch order: a falsy molecule is only logged
(no `continue`), so the following `_above_threshold(mol)` call raises
`AttributeError` on `None` and aborts the pipeline; the heavy-atom,
unknown-element and `ValueError` branches skip with `continue`; a counted
molecule increments the counter and the loop breaks once
`counter >= target`. -/
def detectLoop (threshold target : ℕ) : List Candidate → ℕ → List String → DetectResult
  | [], counter, scored => ⟨counter, scored.reverse, false, none, []⟩
  | c :: rest, counter, scored =>
    if c.molGenerated = false then
      ⟨counter, scored.reverse, false,
        some "AttributeError: NoneType object has no attribute GetAtoms", rest⟩
    else if threshold < c.heavyAtoms then detectLoop threshold target rest counter scored
    else if c.hasUnknownElement then detectLoop threshold target rest counter scored
    else if c.testsystemOk = false then detectLoop threshold target rest counter scored
    else
      let counter1 := counter + 1
      if target ≤ counter1 then ⟨counter1, (c.name :: scored).reverse, true, none, rest⟩
      else detectLoop threshold target rest counter1 (c.name :: scored)

/-- Fuel-driven floor of the base-2 logarithm (structural recursion so the
kernel can evaluate it on literals). -/
def log2Fuel : ℕ → ℕ → ℕ
  | 0, _ => 0
  | fuel + 1, n => if 2 ≤ n then log2Fuel fuel (n / 2) + 1 else 0

/-- Floor of the base-2 logarithm of a positive natural number. -/
def nlog2 (n : ℕ) : ℕ := log2Fuel n n

/-- Round-half-to-even integer division: the rounding step of IEEE-754
binary64 arithmetic, for a positive divisor `B`. -/
def rnDiv (A B : ℕ) : ℕ :=
  let q := A / B
  let r := A % B
  if 2 * r < B then q
  else if B < 2 * r then q + 1
  else if q % 2 = 0 then q else q + 1

/-- Floor of the base-2 logarithm of the positive rational `a / b`,
computed by scaling into the integers: shifting `a` up by one bit more
than the width of `b` makes the integer quotient at least 1, and the floor
log of a real at least 1 equals the floor log of its integer part. -/
def ratLog2 (a b : ℕ) : ℤ :=
  let s := nlog2 b + 1
  (nlog2 ((a * 2 ^ s) / b) : ℤ) - (s : ℤ)

/-- The IEEE-754 binary64 value nearest to the rational `a / b` (round
half to even), as a mantissa of 53 bits and a binary exponent.  Overflow
to infinity and underflow to the subnormal range are not modelled: the
pipeline's quota arithmetic stays far inside the normal range. -/
def rnRat (a b : ℕ) : ℕ × ℤ :=
  if a = 0 then (0, 0)
  else
    let sh := ratLog2 a b - 52
    if 0 ≤ sh then (rnDiv a (b * 2 ^ sh.toNat), sh)
    else (rnDiv (a * 2 ^ (-sh).toNat) b, sh)

/-- IEEE-754 binary64 multiplication: the exact product of the two dyadic
values, rounded back to 53 bits of mantissa. -/
def floatMul (x y : ℕ × ℤ) : ℕ × ℤ :=
  let m := x.1 * y.1
  let e := x.2 + y.2
  if 0 ≤ e then rnRat (m * 2 ^ e.toNat) 1 else rnRat m (2 ^ (-e).toNat)

/-- Python `int()` truncation of a non-negative binary64 value. -/
def floatTruncNat (x : ℕ × ℤ) : ℕ :=
  if 0 ≤ x.2 then x.1 * 2 ^ x.2.toNat else x.1 / 2 ^ (-x.2).toNat

/-- The quota `int(nr_of_molecules * (percentage / 100))` of
`run_detect_minimum` (protocols.py line 936), evaluated as CPython does:
`percentage / 100` is the correctly rounded binary64 quotient,
`nr_of_molecules` is converted to binary64 (exactly, below `2^53`), the
product is rounded to binary64, and `int` truncates.  For some inputs this
is one below the exact `floor(total * percentage / 100)`: for example
`int(100 * (29 / 100)) = 28`. -/
def nrOfMoleculesToTest (total percentage : ℕ) : ℕ :=
  floatTruncNat (floatMul (rnRat total 1) (rnRat percentage 100))

/-- `run_detect_minimum` (protocols.py lines 863-1042): compute the quota
from the database size and the percentage, then run the benchmark loop
from a zero counter. -/
def run_detect_minimum (threshold percentage : ℕ) (cands : List Candidate) : DetectResult :=
  detectLoop threshold (nrOfMoleculesToTest cands.length percentage) cands 0 []

/-- A molecule the loop skips via `continue`: it was generated, but is over
the heavy-atom threshold, contains an unknown element, or its testsystem
construction raised `ValueError`. -/
def isSkipped (threshold : ℕ) (c : Candidate) : Bool :=
  c.molGenerated && (decide (threshold < c.heavyAtoms) || c.hasUnknownElement || !c.testsystemOk)

/-- A molecule the loop scores and counts. -/
def isSuccess (threshold : ℕ) (c : Candidate) : Bool :=
  c.molGenerated && decide (c.heavyAtoms ≤ threshold) && !c.hasUnknownElement && c.testsystemOk

/-!
The bond-length scan of `BondProfileProtocol` (protocols.py lines 255-334),
over exact real geometry.  A conformation is a map from atom index to a
3-vector of coordinates in Ångström.
-/

/-- `np.linalg.norm` of a 3-vector: the Euclidean norm. -/
noncomputable def npLinalgNorm (v : Fin 3 → ℝ) : ℝ :=
  Real.sqrt (∑ k, v k ^ 2)

/-- `np.linspace(start, stop, num)`: sample `i` is
`start + (stop - start) * i / (num - 1)`, so the endpoints are included. -/
noncomputable def npLinspace (start stop : ℝ) (num : ℕ) : List ℝ :=
  (List.range num).map fun i : ℕ => start + (stop - start) * (i : ℝ) / ((num - 1 : ℕ) : ℝ)

namespace BondProfileProtocol

/-- The local `normalized_diff` of `set_bond_length`: the direction vector
from `atom1` to `atom2`, divided by its Euclidean norm. -/
noncomputable def normalized_diff {n : ℕ} (positions : Fin n → Fin 3 → ℝ)
    (atom1 atom2 : Fin n) : Fin 3 → ℝ :=
  fun k => (positions atom2 k - positions atom1 k) /
    npLinalgNorm (fun j => positions atom2 j - positions atom1 j)

/-- `BondProfileProtocol.set_bond_length` (protocols.py lines 262-289):
reposition `atom2` at `positions[atom1] + normalized_diff * length`, leaving
every other atom at its input coordinates. -/
noncomputable def set_bond_length {n : ℕ} (positions : Fin n → Fin 3 → ℝ)
    (atom1 atom2 : Fin n) (length : ℝ) : Fin n → Fin 3 → ℝ :=
  fun i =>
    if i = atom2 then
      fun k => positions atom1 k + normalized_diff positions atom1 atom2 k * length
    else positions i

/-- The lists built by `BondProfileProtocol.perform_DOF_scan`, plus the
engine calls of the loop. -/
structure ScanResult (n : ℕ) where
  potential_energy : List ℝ
  conformations : List (Fin n → Fin 3 → ℝ)
  bond_length : List ℝ
  events : List PEvent

/-- `BondProfileProtocol.perform_DOF_scan` (protocols.py lines 291-334):
for each of the 100 lengths of `np.linspace(0, bond_length_max, 100)`,
reposition from the ORIGINAL positions, set the context positions, and
query energy and positions; `energyOf` stands for the engine's potential
energy at a conformation. -/
noncomputable def perform_DOF_scan {n : ℕ} (energyOf : (Fin n → Fin 3 → ℝ) → ℝ)
    (initial_pos : Fin n → Fin 3 → ℝ) (atom1 atom2 : Fin n)
    (bond_length_max : ℝ) : ScanResult n :=
  let samples := npLinspace 0 bond_length_max 100
  { potential_energy :=
      samples.map fun L => energyOf (set_bond_length initial_pos atom1 atom2 L)
    conformations := samples.map fun L => set_bond_length initial_pos atom1 atom2 L
    bond_length := samples
    events := (samples.map fun _ => [PEvent.setPositions, PEvent.getState true true]).flatten }

end BondProfileProtocol

/-!
Decimal decoding helpers, used to prove that Python's `str` rendering of an
`int` (Lean's `toString : ℤ → String`) is injective, which underpins the
uniqueness of per-temperature output names.
-/

/-- Numeric value of a decimal digit character. -/
def digitVal (c : Char) : ℕ := c.toNat - 48

/-- Decimal evaluation of a digit string, most significant digit first,
starting from the accumulator `a`. -/
def evalFrom (a : ℕ) (l : List Char) : ℕ :=
  l.foldl (fun x c => 10 * x + digitVal c) a

/-!
Concrete inputs used by counterexamples and witnesses.
-/

/-- A typical single-temperature parameter record, as built by
`run_small_molecule_test`. -/
def exampleParms : Params :=
  { temperature := TempSpec.int 300
    log_file_name := "vacuum_ZINC00107550"
    output_folder := "test_output"
    ensemble := "nvt"
    simulated_annealing := false
    protocol_length := 3000 }

/-- The same record with a Python `float` temperature `300.0`. -/
def floatParms : Params :=
  { exampleParms with temperature := TempSpec.float 300 }

/-- The same record with the duplicated temperature list `[300, 300]`. -/
def dupTempParms : Params :=
  { exampleParms with temperature := TempSpec.list [300, 300] }

/-- The same record with the temperature list `[300, 400, 500]`. -/
def listParms : Params :=
  { exampleParms with temperature := TempSpec.list [300, 400, 500] }

/-- Annealing requested under the `npt` ensemble. -/
def nptAnnealParms : Params :=
  { exampleParms with ensemble := "npt", simulated_annealing := true }

/-- Annealing requested under the `nvt` ensemble. -/
def nvtAnnealParms : Params :=
  { exampleParms with simulated_annealing := true }

/-- A benchmark candidate that is scored and counted. -/
def molOk : Candidate := ⟨"ok_mol", true, 5, false, true⟩

/-- A second countable benchmark candidate. -/
def molOk2 : Candidate := ⟨"ok_mol_2", true, 7, false, true⟩

/-- A third countable benchmark candidate. -/
def molOk3 : Candidate := ⟨"ok_mol_3", true, 9, false, true⟩

/-- An SDF file from which no molecule can be generated
(`generate_molecule_from_sdf` returns a falsy value). -/
def molNoneFromSdf : Candidate := ⟨"none_from_sdf", false, 0, false, true⟩

/-- A candidate whose testsystem construction raises `ValueError`. -/
def molValueError : Candidate := ⟨"value_error", true, 5, false, false⟩

/-- A candidate over the heavy-atom threshold of 20. -/
def molHeavy : Candidate := ⟨"heavy", true, 42, false, true⟩

/-- A diatomic geometry: atom 0 at the origin, atom 1 at `(1, 0, 0)`. -/
noncomputable def pos2 : Fin 2 → Fin 3 → ℝ :=
  fun i k => if i = 1 ∧ k = 0 then 1 else 0

/-- A trivial stand-in for the engine's potential energy function. -/
noncomputable def zeroEnergy : (Fin 2 → Fin 3 → ℝ) → ℝ := fun _ => 0


/-!
Injectivity of the decimal rendering of integers, hence of the
per-temperature file-name suffixes.
-/

theorem digitVal_digitChar : ∀ k < 10, digitVal (Nat.digitChar k) = k := by decide

theorem toDigitsCore_append (fuel : ℕ) : ∀ (n : ℕ) (ds : List Char),
    Nat.toDigitsCore 10 fuel n ds = Nat.toDigitsCore 10 fuel n [] ++ ds := by
  induction fuel with
  | zero => intro n ds; simp [Nat.toDigitsCore]
  | succ f ih =>
    intro n ds
    simp only [Nat.toDigitsCore]
    by_cases h : n / 10 = 0
    · simp [h]
    · simp only [h, if_false]
      rw [ih (n / 10) (Nat.digitChar (n % 10) :: ds), ih (n / 10) [Nat.digitChar (n % 10)]]
      simp

theorem evalFrom_append (a : ℕ) (l1 l2 : List Char) :
    evalFrom a (l1 ++ l2) = evalFrom (evalFrom a l1) l2 := by
  simp [evalFrom, List.foldl_append]

theorem toDigitsCore_eval (fuel : ℕ) : ∀ n, n < fuel →
    evalFrom 0 (Nat.toDigitsCore 10 fuel n []) = n := by
  induction fuel with
  | zero => intro n h; exact absurd h (Nat.not_lt_zero n)
  | succ f ih =>
    intro n h
    simp only [Nat.toDigitsCore]
    by_cases h0 : n / 10 = 0
    · have hn : n < 10 := by omega
      have : n % 10 = n := Nat.mod_eq_of_lt hn
      simp [h0, evalFrom, digitVal_digitChar (n % 10) (Nat.mod_lt n (by norm_num)), this]
      rw [digitVal_digitChar n hn]
    · have hpos : 0 < n := by
        rcases Nat.eq_zero_or_pos n with h1 | h1
        · subst h1; simp at h0
        · exact h1
      have hlt : n / 10 < f := by
        have := Nat.div_lt_self hpos (by norm_num : (1:ℕ) < 10)
        omega
      simp only [h0, if_false]
      rw [toDigitsCore_append f (n / 10) [Nat.digitChar (n % 10)]]
      rw [evalFrom_append, ih (n / 10) hlt]
      show 10 * (n / 10) + digitVal (Nat.digitChar (n % 10)) = n
      rw [digitVal_digitChar (n % 10) (Nat.mod_lt n (by norm_num))]
      omega

theorem natRepr_injective : Function.Injective Nat.repr := by
  intro m n h
  have hd : Nat.toDigits 10 m = Nat.toDigits 10 n := congrArg String.data h
  have hm := toDigitsCore_eval (m + 1) m (Nat.lt_succ_self m)
  have hn := toDigitsCore_eval (n + 1) n (Nat.lt_succ_self n)
  rw [show Nat.toDigitsCore 10 (m + 1) m [] = Nat.toDigits 10 m from rfl, hd] at hm
  rw [show Nat.toDigitsCore 10 (n + 1) n [] = Nat.toDigits 10 n from rfl] at hn
  omega

theorem toDigitsCore_chars (fuel : ℕ) : ∀ (n : ℕ) (ds : List Char) (c : Char),
    c ∈ Nat.toDigitsCore 10 fuel n ds → c ∈ ds ∨ ∃ k, k < 10 ∧ c = Nat.digitChar k := by
  induction fuel with
  | zero => intro n ds c h; exact Or.inl (by simpa [Nat.toDigitsCore] using h)
  | succ f ih =>
    intro n ds c h
    simp only [Nat.toDigitsCore] at h
    by_cases h0 : n / 10 = 0
    · simp only [h0, if_true] at h
      rcases List.mem_cons.mp h with h1 | h1
      · exact Or.inr ⟨n % 10, Nat.mod_lt n (by norm_num), h1⟩
      · exact Or.inl h1
    · simp only [h0, if_false] at h
      rcases ih (n / 10) (Nat.digitChar (n % 10) :: ds) c h with h1 | h1
      · rcases List.mem_cons.mp h1 with h2 | h2
        · exact Or.inr ⟨n % 10, Nat.mod_lt n (by norm_num), h2⟩
        · exact Or.inl h2
      · exact Or.inr h1

theorem toDigitsCore_ne_nil (fuel n : ℕ) (hf : 0 < fuel) :
    Nat.toDigitsCore 10 fuel n [] ≠ [] := by
  match fuel, hf with
  | f + 1, _ =>
    simp only [Nat.toDigitsCore]
    by_cases h0 : n / 10 = 0
    · simp [h0]
    · simp only [h0, if_false]
      rw [toDigitsCore_append f (n / 10) [Nat.digitChar (n % 10)]]
      simp

theorem intToString_injective : Function.Injective (toString : ℤ → String) := by
  intro i j h
  match i, j with
  | Int.ofNat m, Int.ofNat n =>
    exact congrArg Int.ofNat (natRepr_injective h)
  | Int.negSucc m, Int.negSucc n =>
    have hd : ('-' :: Nat.toDigits 10 (m + 1)) = ('-' :: Nat.toDigits 10 (n + 1)) :=
      congrArg String.data h
    have : Nat.repr (m + 1) = Nat.repr (n + 1) :=
      String.ext (List.cons.injEq .. ▸ hd).2
    have h2 := natRepr_injective this
    exact congrArg Int.negSucc (by omega)
  | Int.ofNat m, Int.negSucc n =>
    exfalso
    have hd : Nat.toDigits 10 m = '-' :: Nat.toDigits 10 (n + 1) := congrArg String.data h
    have hmem : '-' ∈ Nat.toDigits 10 m := by rw [hd]; exact List.mem_cons_self _ _
    rcases toDigitsCore_chars (m + 1) m [] '-' hmem with h1 | ⟨k, hk, h1⟩
    · simp at h1
    · revert h1
      have : ∀ k < 10, Nat.digitChar k ≠ '-' := by decide
      exact fun h1 => this k hk h1.symm
  | Int.negSucc m, Int.ofNat n =>
    exfalso
    have hd : ('-' :: Nat.toDigits 10 (m + 1)) = Nat.toDigits 10 n := congrArg String.data h
    have hmem : '-' ∈ Nat.toDigits 10 n := by rw [← hd]; exact List.mem_cons_self _ _
    rcases toDigitsCore_chars (n + 1) n [] '-' hmem with h1 | ⟨k, hk, h1⟩
    · simp at h1
    · revert h1
      have : ∀ k < 10, Nat.digitChar k ≠ '-' := by decide
      exact fun h1 => this k hk h1.symm

/-- Appending a rendered temperature between a fixed base name and the
character `K` is injective in the temperature. -/
theorem nameSuffix_injective (base : String) :
    Function.Injective (fun T : ℤ => base ++ "_" ++ toString T ++ "K") := by
  intro x y h
  apply intToString_injective
  apply String.ext
  have hd := congrArg String.data h
  simp only [String.data_append, List.append_assoc] at hd
  exact List.append_cancel_right (List.append_cancel_left (List.append_cancel_left hd))

/-!
Control-flow facts about the simulation setup and the per-temperature loop.
-/

/-- Outside the `npt` ensemble the annealing loop completes without raising. -/
theorem annealStages_error_eq_none (ensemble : String) (h : ensemble ≠ "npt") :
    ∀ ts : List ℚ, (StabilityTest.annealStages ensemble ts).error = none := by
  intro ts
  induction ts with
  | nil => rfl
  | cons t rest ih => simp [StabilityTest.annealStages, h, ih]

/-- The annealing loop never calls the energy minimizer. -/
theorem annealStages_no_minimize (ensemble : String) :
    ∀ ts : List ℚ,
      PEvent.minimizeEnergy ∉ (StabilityTest.annealStages ensemble ts).events := by
  intro ts
  induction ts with
  | nil => simp [StabilityTest.annealStages]
  | cons t rest ih =>
    by_cases h : ensemble = "npt"
    · simp [StabilityTest.annealStages, h]
    · simp [StabilityTest.annealStages, h, ih]

/-- Setup completes without raising whenever the temperature is scalar and
the crashing combination (annealing under `npt`) is avoided. -/
theorem setup_error_none (p : Params) (m : Bool) (T : ℚ)
    (ht : tempAsRat p.temperature = some T)
    (hsafe : p.simulated_annealing = false ∨ p.ensemble ≠ "npt") :
    (StabilityTest._setup_simulation p m).error = none := by
  rcases hsafe with h | h
  · simp [StabilityTest._setup_simulation, h]
  · by_cases ha : p.simulated_annealing
    · simp [StabilityTest._setup_simulation, ha, ht,
        annealStages_error_eq_none p.ensemble h]
    · simp [StabilityTest._setup_simulation, ha]

/-- Setup with `minimize=False` never calls the energy minimizer. -/
theorem setup_false_no_minimize (p : Params) :
    PEvent.minimizeEnergy ∉ (StabilityTest._setup_simulation p false).events := by
  by_cases ha : p.simulated_annealing
  · cases ht : tempAsRat p.temperature with
    | some T =>
      simp [StabilityTest._setup_simulation, ha, ht,
        annealStages_no_minimize p.ensemble (annealTemps T)]
    | none => simp [StabilityTest._setup_simulation, ha, ht]
  · simp [StabilityTest._setup_simulation, ha]

/-- The multi-temperature loop, when no run crashes: one run per
temperature in order, names derived from the original base name, and no
pre-minimization anywhere. -/
theorem loopTemps_spec (parms : Params)
    (hsafe : parms.simulated_annealing = false ∨ parms.ensemble ≠ "npt") :
    ∀ temps : List ℤ,
      (MultiTemperatureProtocol.loopTemps parms temps).2 = none ∧
      (MultiTemperatureProtocol.loopTemps parms temps).1.map RunRecord.temperature = temps ∧
      (MultiTemperatureProtocol.loopTemps parms temps).1.map RunRecord.log_file_name
        = temps.map (fun T => parms.log_file_name ++ "_" ++ toString T ++ "K") ∧
      ∀ rec ∈ (MultiTemperatureProtocol.loopTemps parms temps).1,
        PEvent.minimizeEnergy ∉ rec.events := by
  intro temps
  induction temps with
  | nil => exact ⟨rfl, rfl, rfl, by simp [MultiTemperatureProtocol.loopTemps]⟩
  | cons T rest ih =>
    have herr : (StabilityTest._setup_simulation
        { parms with
          temperature := TempSpec.int T
          log_file_name := parms.log_file_name ++ "_" ++ toString T ++ "K" } false).error
        = none :=
      setup_error_none _ false (T : ℚ) rfl hsafe
    simp only [MultiTemperatureProtocol.loopTemps]
    rw [herr]
    refine ⟨ih.1, ?_, ?_, ?_⟩
    · simpa using ih.2.1
    · simpa using ih.2.2.1
    · intro rec hrec
      rcases List.mem_cons.mp hrec with hrec | hrec
      · subst hrec
        simp only [List.mem_append]
        rintro (hmem | hmem)
        · exact setup_false_no_minimize _ hmem
        · simp [StabilityTest._run_simulation] at hmem
      · exact ih.2.2.2 rec hrec

/-- After `PropagationProtocol.perform_stability_test` the caller's object
carries the in-place suffixed log file name. -/
theorem propagation_mutates_parms (q : Params) (T : ℤ)
    (hq : q.temperature = TempSpec.int T) :
    (PropagationProtocol.perform_stability_test q).parms
      = { q with log_file_name := q.log_file_name ++ "_" ++ toString T } := by
  simp only [PropagationProtocol.perform_stability_test, hq]
  cases h : (StabilityTest._setup_simulation
    { q with
      temperature := TempSpec.int T
      log_file_name := q.log_file_name ++ "_" ++ toString T } true).error <;> rfl

/-!
Claim theorems.
-/

/-- C3 (amended): for a temperature list with pairwise distinct entries, and
avoiding the annealing-under-npt crash, `MultiTemperatureProtocol.perform_stability_test`
performs exactly one run per temperature, in list order; each run's output
name is the original base name suffixed with `_{T}K` (all names distinct),
and no run is pre-minimized.  (As literally stated the claim fails for a
list with a repeated temperature: the two runs then share one output name.) -/
theorem C3_multi_temperature_runs (parms : Params) (temps : List ℤ)
    (hT : parms.temperature = TempSpec.list temps)
    (hnodup : temps.Nodup)
    (hsafe : parms.simulated_annealing = false ∨ parms.ensemble ≠ "npt") :
    (MultiTemperatureProtocol.perform_stability_test parms).error = none ∧
    (MultiTemperatureProtocol.perform_stability_test parms).runs.length = temps.length ∧
    (MultiTemperatureProtocol.perform_stability_test parms).runs.map RunRecord.temperature
      = temps ∧
    (MultiTemperatureProtocol.perform_stability_test parms).runs.map RunRecord.log_file_name
      = temps.map (fun T => parms.log_file_name ++ "_" ++ toString T ++ "K") ∧
    ((MultiTemperatureProtocol.perform_stability_test parms).runs.map
      RunRecord.log_file_name).Nodup ∧
    ∀ rec ∈ (MultiTemperatureProtocol.perform_stability_test parms).runs,
      PEvent.minimizeEnergy ∉ rec.events := by
  have h := loopTemps_spec parms hsafe temps
  simp only [MultiTemperatureProtocol.perform_stability_test, hT]
  refine ⟨h.1, ?_, h.2.1, h.2.2.1, ?_, h.2.2.2⟩
  · have hlen := congrArg List.length h.2.1
    simpa using hlen
  · rw [h.2.2.1]
    exact hnodup.map (nameSuffix_injective parms.log_file_name)

/-- C3 witness: the amended statement evaluated on the list `[300, 400, 500]`. -/
theorem C3_multi_temperature_runs_witness :
    (listParms.temperature = TempSpec.list [300, 400, 500] ∧
      ([300, 400, 500] : List ℤ).Nodup ∧
      (listParms.simulated_annealing = false ∨ listParms.ensemble ≠ "npt")) ∧
    ((MultiTemperatureProtocol.perform_stability_test listParms).error = none ∧
      (MultiTemperatureProtocol.perform_stability_test listParms).runs.length
        = ([300, 400, 500] : List ℤ).length ∧
      (MultiTemperatureProtocol.perform_stability_test listParms).runs.map
        RunRecord.temperature = [300, 400, 500] ∧
      (MultiTemperatureProtocol.perform_stability_test listParms).runs.map
        RunRecord.log_file_name
        = ([300, 400, 500] : List ℤ).map
            (fun T => listParms.log_file_name ++ "_" ++ toString T ++ "K") ∧
      ((MultiTemperatureProtocol.perform_stability_test listParms).runs.map
        RunRecord.log_file_name).Nodup ∧
      ∀ rec ∈ (MultiTemperatureProtocol.perform_stability_test listParms).runs,
        PEvent.minimizeEnergy ∉ rec.events) :=
  ⟨⟨rfl, by decide, Or.inl rfl⟩,
    C3_multi_temperature_runs listParms [300, 400, 500] rfl (by decide) (Or.inl rfl)⟩

/-- C3 counterexample: with the duplicated temperature list `[300, 300]`
the two runs share the output name `vacuum_ZINC00107550_300K`, so the
claimed uniqueness of the per-temperature names fails. -/
theorem C3_counterexample_duplicate_temperatures :
    (MultiTemperatureProtocol.perform_stability_test dupTempParms).runs.map
        RunRecord.log_file_name
      = ["vacuum_ZINC00107550_300K", "vacuum_ZINC00107550_300K"] ∧
    ¬ ((MultiTemperatureProtocol.perform_stability_test dupTempParms).runs.map
        RunRecord.log_file_name).Nodup := by
  decide

/-- C4: the simulated-annealing ramp of `_setup_simulation` under the `npt`
ensemble raises `NameError` (the undefined `barostate_force_id`) at the
first stage, right after `step(100)` and the first integrator-temperature
update, so the barostat reference temperature is never updated; under
`nvt` the ramp runs all 10 stages, `np.linspace(0, 300, 10)`, with 100
steps and one integrator-temperature update per stage. -/
theorem C4_annealing_npt_name_error :
    (StabilityTest._setup_simulation nptAnnealParms true).error
      = some "NameError: name barostate_force_id is not defined" ∧
    (StabilityTest._setup_simulation nptAnnealParms true).events
      = [PEvent.createSimulation (TempSpec.int 300), PEvent.setPositions,
         PEvent.minimizeEnergy, PEvent.step 100, PEvent.setIntegratorTemp 0] ∧
    (StabilityTest._setup_simulation nvtAnnealParms true).error = none ∧
    (StabilityTest._setup_simulation nvtAnnealParms true).events
      = [PEvent.createSimulation (TempSpec.int 300), PEvent.setPositions,
         PEvent.minimizeEnergy,
         PEvent.step 100, PEvent.setIntegratorTemp 0,
         PEvent.step 100, PEvent.setIntegratorTemp (100 / 3),
         PEvent.step 100, PEvent.setIntegratorTemp (200 / 3),
         PEvent.step 100, PEvent.setIntegratorTemp 100,
         PEvent.step 100, PEvent.setIntegratorTemp (400 / 3),
         PEvent.step 100, PEvent.setIntegratorTemp (500 / 3),
         PEvent.step 100, PEvent.setIntegratorTemp 200,
         PEvent.step 100, PEvent.setIntegratorTemp (700 / 3),
         PEvent.step 100, PEvent.setIntegratorTemp (800 / 3),
         PEvent.step 100, PEvent.setIntegratorTemp 300] := by
  have hrange : List.range 10 = [0, 1, 2, 3, 4, 5, 6, 7, 8, 9] := rfl
  have htemps : annealTemps ((300 : ℤ) : ℚ)
      = [0, 100 / 3, 200 / 3, 100, 400 / 3, 500 / 3, 200, 700 / 3, 800 / 3, 300] := by
    rw [annealTemps, hrange]
    norm_num
  refine ⟨?_, ?_, ?_, ?_⟩ <;>
    simp [StabilityTest._setup_simulation, nptAnnealParms, nvtAnnealParms, exampleParms,
      tempAsRat, htemps, StabilityTest.annealStages] <;>
    norm_num

/-- C5: a non-list temperature makes `MultiTemperatureProtocol.perform_stability_test`
raise `RuntimeError` with no engine call issued: no run is even started. -/
theorem C5_scalar_temperature_fatal (parms : Params)
    (h : ∀ ts : List ℤ, parms.temperature ≠ TempSpec.list ts) :
    (MultiTemperatureProtocol.perform_stability_test parms).runs = [] ∧
    (MultiTemperatureProtocol.perform_stability_test parms).error
      = some "RuntimeError: You need to provide mutliple temperatures to run the MultiTemperatureProtocol." := by
  cases htemp : parms.temperature with
  | int T => simp [MultiTemperatureProtocol.perform_stability_test, htemp]
  | float p => simp [MultiTemperatureProtocol.perform_stability_test, htemp]
  | list ts => exact absurd htemp (h ts)

/-- C5 witness: the scalar temperature `300` evaluated concretely. -/
theorem C5_scalar_temperature_fatal_witness :
    (∀ ts : List ℤ, exampleParms.temperature ≠ TempSpec.list ts) ∧
    ((MultiTemperatureProtocol.perform_stability_test exampleParms).runs = [] ∧
      (MultiTemperatureProtocol.perform_stability_test exampleParms).error
        = some "RuntimeError: You need to provide mutliple temperatures to run the MultiTemperatureProtocol.") :=
  ⟨fun ts h => by simp [exampleParms] at h,
    C5_scalar_temperature_fatal exampleParms (fun ts h => by simp [exampleParms] at h)⟩

/-- C7 (amended): `MultiTemperatureProtocol.perform_stability_test` leaves
the caller's parameters object unchanged, mutating only the derived
per-temperature clones; but `PropagationProtocol.perform_stability_test`
mutates the caller's object in place, appending `_{T}` to its
`log_file_name`.  (As literally stated the claim fails: the propagation
protocol does mutate the original object.) -/
theorem C7_parameters_mutation (p q : Params) (temps : List ℤ) (T : ℤ)
    (hp : p.temperature = TempSpec.list temps)
    (hq : q.temperature = TempSpec.int T) :
    (MultiTemperatureProtocol.perform_stability_test p).parms = p ∧
    (PropagationProtocol.perform_stability_test q).parms
      = { q with log_file_name := q.log_file_name ++ "_" ++ toString T } := by
  constructor
  · simp [MultiTemperatureProtocol.perform_stability_test, hp]
  · exact propagation_mutates_parms q T hq

/-- C7 witness: the amended statement evaluated on concrete parameters. -/
theorem C7_parameters_mutation_witness :
    (listParms.temperature = TempSpec.list [300, 400, 500] ∧
      exampleParms.temperature = TempSpec.int 300) ∧
    ((MultiTemperatureProtocol.perform_stability_test listParms).parms = listParms ∧
      (PropagationProtocol.perform_stability_test exampleParms).parms
        = { exampleParms with
            log_file_name := exampleParms.log_file_name ++ "_" ++ toString (300 : ℤ) }) :=
  ⟨⟨rfl, rfl⟩, C7_parameters_mutation listParms exampleParms [300, 400, 500] 300 rfl rfl⟩

/-- C7 counterexample: after `PropagationProtocol.perform_stability_test`
the caller's object is no longer equal to what was passed in: its
`log_file_name` has been suffixed in place. -/
theorem C7_counterexample_propagation_mutates :
    (PropagationProtocol.perform_stability_test exampleParms).parms ≠ exampleParms ∧
    (PropagationProtocol.perform_stability_test exampleParms).parms.log_file_name
      = "vacuum_ZINC00107550_300" ∧
    exampleParms.log_file_name = "vacuum_ZINC00107550" := by
  decide

/-- C8: with simulated annealing off, `MinimizationProtocol.perform_stability_test`
never advances the simulation by integration steps (for either value of
`minimize`), always writes the post-minimization PDB snapshot, and returns
a state carrying both positions and potential energy. -/
theorem C8_minimization_no_dynamics (parms : Params) (minimize : Bool)
    (h : parms.simulated_annealing = false) :
    (MinimizationProtocol.perform_stability_test parms minimize).error = none ∧
    (∀ k, PEvent.step k ∉ (MinimizationProtocol.perform_stability_test parms minimize).events) ∧
    PEvent.writePDB (parms.output_folder ++ "/" ++ parms.log_file_name ++ ".pdb")
      ∈ (MinimizationProtocol.perform_stability_test parms minimize).events ∧
    (MinimizationProtocol.perform_stability_test parms minimize).state
      = some { hasPositions := true, hasEnergy := true } := by
  have hs : StabilityTest._setup_simulation parms minimize =
      { events := [PEvent.createSimulation parms.temperature, PEvent.setPositions] ++
          (if minimize then [PEvent.minimizeEnergy] else []),
        error := none } := by
    simp [StabilityTest._setup_simulation, h]
  have hres : MinimizationProtocol.perform_stability_test parms minimize =
      { events := ([PEvent.createSimulation parms.temperature, PEvent.setPositions] ++
          (if minimize then [PEvent.minimizeEnergy] else [])) ++
          [PEvent.getState true true,
           PEvent.writePDB (parms.output_folder ++ "/" ++ parms.log_file_name ++ ".pdb")],
        state := some { hasPositions := true, hasEnergy := true },
        error := none } := by
    simp [MinimizationProtocol.perform_stability_test, hs]
  rw [hres]
  refine ⟨rfl, ?_, ?_, rfl⟩
  · intro k
    cases minimize <;> simp
  · cases minimize <;> simp

/-- C8 witness: the statement evaluated with `minimize=False` on concrete
parameters. -/
theorem C8_minimization_no_dynamics_witness :
    exampleParms.simulated_annealing = false ∧
    ((MinimizationProtocol.perform_stability_test exampleParms false).error = none ∧
      (∀ k, PEvent.step k ∉ (MinimizationProtocol.perform_stability_test exampleParms false).events) ∧
      PEvent.writePDB (exampleParms.output_folder ++ "/" ++ exampleParms.log_file_name ++ ".pdb")
        ∈ (MinimizationProtocol.perform_stability_test exampleParms false).events ∧
      (MinimizationProtocol.perform_stability_test exampleParms false).state
        = some { hasPositions := true, hasEnergy := true }) :=
  ⟨rfl, C8_minimization_no_dynamics exampleParms false rfl⟩

/-- C10: a Python `float` temperature (any non-`int` scalar) makes
`PropagationProtocol.perform_stability_test` fail its `isinstance`
assertion immediately: no engine call is issued and the caller's object is
left untouched. -/
theorem C10_float_temperature_assertion (parms : Params) (p : ℚ)
    (h : parms.temperature = TempSpec.float p) :
    PropagationProtocol.perform_stability_test parms
      = ⟨parms, [], some "AssertionError: isinstance(parms.temperature, int)"⟩ := by
  simp [PropagationProtocol.perform_stability_test, h]

/-- C10 witness: the float temperature `300.0` evaluated concretely. -/
theorem C10_float_temperature_assertion_witness :
    floatParms.temperature = TempSpec.float 300 ∧
    PropagationProtocol.perform_stability_test floatParms
      = ⟨floatParms, [], some "AssertionError: isinstance(parms.temperature, int)"⟩ :=
  ⟨rfl, C10_float_temperature_assertion floatParms 300 rfl⟩

/-!
The benchmark loop: skipping and halting.
-/

/-- A molecule skipped via `continue` leaves counter, scores, and the rest
of the run untouched. -/
theorem detectLoop_skip (threshold target : ℕ) (c : Candidate) (rest : List Candidate)
    (counter : ℕ) (scored : List String) (h : isSkipped threshold c = true) :
    detectLoop threshold target (c :: rest) counter scored
      = detectLoop threshold target rest counter scored := by
  rw [isSkipped, Bool.and_eq_true] at h
  obtain ⟨hm, hor⟩ := h
  rcases Bool.or_eq_true_iff.mp hor with hor1 | h3
  · rcases Bool.or_eq_true_iff.mp hor1 with h1 | h2
    · have h1' : threshold < c.heavyAtoms := of_decide_eq_true h1
      simp [detectLoop, hm, h1']
    · by_cases h1 : threshold < c.heavyAtoms
      · simp [detectLoop, hm, h1]
      · simp [detectLoop, hm, h1, h2]
  · have h3' : c.testsystemOk = false := by
      revert h3; cases c.testsystemOk <;> simp
    by_cases h1 : threshold < c.heavyAtoms
    · simp [detectLoop, hm, h1]
    · by_cases h2 : c.hasUnknownElement
      · simp [detectLoop, hm, h1, h2]
      · simp [detectLoop, hm, h1, h2, h3']

/-- With every molecule generated, a positive quota, and at least
quota-many countable molecules ahead, the loop stops through the `break`
with the counter exactly at the quota. -/
theorem detectLoop_halts_at_target (threshold target : ℕ) :
    ∀ (cands : List Candidate) (counter : ℕ) (scored : List String),
      (∀ c ∈ cands, c.molGenerated = true) →
      counter < target →
      target ≤ counter + cands.countP (fun c => isSuccess threshold c) →
      (detectLoop threshold target cands counter scored).counter = target ∧
      (detectLoop threshold target cands counter scored).haltedEarly = true ∧
      (detectLoop threshold target cands counter scored).error = none := by
  intro cands
  induction cands with
  | nil =>
    intro counter scored hmols hlt hle
    rw [List.countP_nil] at hle
    omega
  | cons c rest ih =>
    intro counter scored hmols hlt hle
    have hm : c.molGenerated = true := hmols c (List.mem_cons_self c rest)
    have hrest : ∀ x ∈ rest, x.molGenerated = true :=
      fun x hx => hmols x (List.mem_cons_of_mem c hx)
    rw [List.countP_cons] at hle
    by_cases h1 : threshold < c.heavyAtoms
    · have hsk : isSkipped threshold c = true := by
        simp [isSkipped, hm, h1]
      rw [detectLoop_skip threshold target c rest counter scored hsk]
      have hfail : (isSuccess threshold c : Bool) = false := by
        simp [isSuccess]
        omega
      rw [hfail] at hle
      exact ih counter scored hrest hlt (by simpa using hle)
    · by_cases h2 : c.hasUnknownElement
      · have hsk : isSkipped threshold c = true := by
          simp [isSkipped, hm, h2]
        rw [detectLoop_skip threshold target c rest counter scored hsk]
        have hfail : (isSuccess threshold c : Bool) = false := by
          simp [isSuccess, h2]
        rw [hfail] at hle
        exact ih counter scored hrest hlt (by simpa using hle)
      · by_cases h3 : c.testsystemOk = false
        · have hsk : isSkipped threshold c = true := by
            simp [isSkipped, hm, h3]
          rw [detectLoop_skip threshold target c rest counter scored hsk]
          have hfail : (isSuccess threshold c : Bool) = false := by
            simp [isSuccess, h3]
          rw [hfail] at hle
          exact ih counter scored hrest hlt (by simpa using hle)
        · have h3' : c.testsystemOk = true := by
            revert h3; cases c.testsystemOk <;> simp
          have h2' : c.hasUnknownElement = false := by
            revert h2; cases c.hasUnknownElement <;> simp
          have hsucc : (isSuccess threshold c : Bool) = true := by
            simp [isSuccess, hm, h2', h3']
            omega
          rw [hsucc] at hle
          simp only [if_true] at hle
          simp only [detectLoop, hm, h1, h2', h3', Bool.false_eq_true, if_false,
            Bool.true_eq_false, if_true]
          by_cases h4 : target ≤ counter + 1
          · have : target = counter + 1 := by omega
            simp [h4, this]
          · have h4' : counter + 1 < target := by omega
            simp only [h4, if_false]
            exact ih (counter + 1) (c.name :: scored) hrest h4' (by omega)

/-- C2 (amended): with a positive quota, enough countable molecules in the
database, and every molecule loadable, `run_detect_minimum` halts through
the quota `break` with the success counter exactly at the quota the code
computes, `int(total * (percentage / 100))` in binary64 floating point,
and no error; moreover a skipped molecule (heavy-atom threshold, unknown
element, or `ValueError` in topology construction) never changes the loop
state, in particular never increments the counter.  (As literally stated
the claim fails twice: the float quota is one below the claimed exact
`floor(total * percentage / 100)` for some inputs, e.g. 28 instead of 29
at 100 molecules and 29 percent; and when the quota is zero the loop
checks it only after the first success, so it still consumes one molecule
and halts with the counter at 1, not 0.) -/
theorem C2_minimization_quota (threshold percentage : ℕ) (cands : List Candidate)
    (hmols : ∀ c ∈ cands, c.molGenerated = true)
    (htarget : 1 ≤ nrOfMoleculesToTest cands.length percentage)
    (henough : nrOfMoleculesToTest cands.length percentage
      ≤ cands.countP (fun c => isSuccess threshold c)) :
    ((run_detect_minimum threshold percentage cands).counter
        = nrOfMoleculesToTest cands.length percentage ∧
      (run_detect_minimum threshold percentage cands).haltedEarly = true ∧
      (run_detect_minimum threshold percentage cands).error = none) ∧
    ∀ (c : Candidate) (rest : List Candidate) (target counter : ℕ) (scored : List String),
      isSkipped threshold c = true →
      detectLoop threshold target (c :: rest) counter scored
        = detectLoop threshold target rest counter scored := by
  constructor
  · exact detectLoop_halts_at_target threshold (nrOfMoleculesToTest cands.length percentage)
      cands 0 [] hmols (by omega) (by simpa using henough)
  · intro c rest target counter scored hsk
    exact detectLoop_skip threshold target c rest counter scored hsk

set_option maxRecDepth 40000 in
/-- C2 witness: four molecules at 50 percent give quota 2; the run counts
the two countable molecules, skips the over-threshold one, and halts. -/
theorem C2_minimization_quota_witness :
    ((∀ c ∈ [molOk, molHeavy, molOk2, molValueError], c.molGenerated = true) ∧
      1 ≤ nrOfMoleculesToTest ([molOk, molHeavy, molOk2, molValueError] : List Candidate).length 50 ∧
      nrOfMoleculesToTest ([molOk, molHeavy, molOk2, molValueError] : List Candidate).length 50
        ≤ ([molOk, molHeavy, molOk2, molValueError] : List Candidate).countP
            (fun c => isSuccess 20 c)) ∧
    (((run_detect_minimum 20 50 [molOk, molHeavy, molOk2, molValueError]).counter
        = nrOfMoleculesToTest ([molOk, molHeavy, molOk2, molValueError] : List Candidate).length 50 ∧
      (run_detect_minimum 20 50 [molOk, molHeavy, molOk2, molValueError]).haltedEarly = true ∧
      (run_detect_minimum 20 50 [molOk, molHeavy, molOk2, molValueError]).error = none) ∧
    ∀ (c : Candidate) (rest : List Candidate) (target counter : ℕ) (scored : List String),
      isSkipped 20 c = true →
      detectLoop 20 target (c :: rest) counter scored
        = detectLoop 20 target rest counter scored) :=
  ⟨⟨by decide, by decide, by decide⟩,
    C2_minimization_quota 20 50 [molOk, molHeavy, molOk2, molValueError]
      (by decide) (by decide) (by decide)⟩

set_option maxRecDepth 40000 in
/-- C2 counterexample: the claim's halt counter `floor(total * percentage
/ 100)` is not what the code reaches.  First, the float quota
`int(100 * (29 / 100))` is 28, one below `floor(100 * 29 / 100) = 29`, so
over 100 countable molecules at 29 percent the pipeline halts with the
counter at 28, never reaching 29.  Second, five molecules at 10 percent
give quota 0, yet the pipeline still does engine work and halts with the
counter at 1, so in neither run does it halt "when the success counter
reaches" the claimed floor. -/
theorem C2_counterexample_quota :
    (nrOfMoleculesToTest (List.replicate 100 molOk).length 29 = 28 ∧
      100 * 29 / 100 = 29 ∧
      (run_detect_minimum 20 29 (List.replicate 100 molOk)).counter = 28 ∧
      (run_detect_minimum 20 29 (List.replicate 100 molOk)).haltedEarly = true ∧
      (run_detect_minimum 20 29 (List.replicate 100 molOk)).error = none) ∧
    (nrOfMoleculesToTest
        ([molOk, molOk2, molOk3, molHeavy, molValueError] : List Candidate).length 10 = 0 ∧
      (run_detect_minimum 20 10 [molOk, molOk2, molOk3, molHeavy, molValueError]).haltedEarly
        = true ∧
      (run_detect_minimum 20 10 [molOk, molOk2, molOk3, molHeavy, molValueError]).counter
        = 1) := by
  decide

set_option maxRecDepth 40000 in
/-- C6: a candidate whose SDF yields no molecule is only logged, not
skipped: the next call, `_above_threshold(mol)` on `None`, raises
`AttributeError` and aborts the pipeline with the later candidates
unprocessed and nothing counted; by contrast a `ValueError` from testsystem
construction is caught and that molecule is skipped while the pipeline
continues to completion. -/
theorem C6_sdf_none_aborts_pipeline :
    ((run_detect_minimum 20 100 [molNoneFromSdf, molOk]).error
      = some "AttributeError: NoneType object has no attribute GetAtoms" ∧
    (run_detect_minimum 20 100 [molNoneFromSdf, molOk]).counter = 0 ∧
    (run_detect_minimum 20 100 [molNoneFromSdf, molOk]).remaining = [molOk]) ∧
    ((run_detect_minimum 20 100 [molValueError, molOk]).error = none ∧
    (run_detect_minimum 20 100 [molValueError, molOk]).counter = 1 ∧
    (run_detect_minimum 20 100 [molValueError, molOk]).remaining = []) := by
  decide

/-!
Geometry of the bond-length scan.
-/

/-- The direction vector of the diatomic example is not the zero vector. -/
theorem pos2_diff_ne_zero : (fun k => pos2 1 k - pos2 0 k) ≠ fun _ => (0 : ℝ) := by
  intro hcontra
  have h0 := congrFun hcontra 0
  norm_num [pos2] at h0

/-- The normalized direction vector has Euclidean norm 1 whenever the two
atoms sit at distinct positions. -/
theorem npLinalgNorm_normalized_diff {n : ℕ} (pos : Fin n → Fin 3 → ℝ) (a1 a2 : Fin n)
    (h : (fun k => pos a2 k - pos a1 k) ≠ fun _ => (0 : ℝ)) :
    npLinalgNorm (BondProfileProtocol.normalized_diff pos a1 a2) = 1 := by
  have hsum : 0 < ∑ k, (pos a2 k - pos a1 k) ^ 2 := by
    have hex : ∃ k, pos a2 k - pos a1 k ≠ 0 := by
      by_contra hc
      push_neg at hc
      exact h (funext fun k => hc k)
    obtain ⟨k0, hk0⟩ := hex
    refine Finset.sum_pos' (fun k _ => sq_nonneg _) ⟨k0, Finset.mem_univ k0, ?_⟩
    positivity
  have hc : npLinalgNorm (fun j => pos a2 j - pos a1 j)
      = Real.sqrt (∑ j, (pos a2 j - pos a1 j) ^ 2) := rfl
  have hcpos : 0 < npLinalgNorm (fun j => pos a2 j - pos a1 j) := by
    rw [hc]
    exact Real.sqrt_pos.mpr hsum
  have hc2 : npLinalgNorm (fun j => pos a2 j - pos a1 j) ^ 2
      = ∑ j, (pos a2 j - pos a1 j) ^ 2 := by
    rw [hc]
    exact Real.sq_sqrt hsum.le
  have key : (∑ k, ((pos a2 k - pos a1 k) / npLinalgNorm (fun j => pos a2 j - pos a1 j)) ^ 2)
      = 1 := by
    calc (∑ k, ((pos a2 k - pos a1 k) / npLinalgNorm (fun j => pos a2 j - pos a1 j)) ^ 2)
        = ∑ k, (pos a2 k - pos a1 k) ^ 2
            / npLinalgNorm (fun j => pos a2 j - pos a1 j) ^ 2 := by
          simp [div_pow]
      _ = (∑ k, (pos a2 k - pos a1 k) ^ 2)
            / npLinalgNorm (fun j => pos a2 j - pos a1 j) ^ 2 := by
          rw [Finset.sum_div]
      _ = 1 := by
          rw [hc2]
          exact div_self hsum.ne'
  show Real.sqrt (∑ k,
      ((pos a2 k - pos a1 k) / npLinalgNorm (fun j => pos a2 j - pos a1 j)) ^ 2) = 1
  rw [key, Real.sqrt_one]

/-- C1: the bond scan evaluates exactly 100 samples, at lengths
`M * i / 99` for `i = 0, ..., 99` (uniformly spaced, non-decreasing, from 0
to `M` inclusive); every conformation repositions only the bond's second
atom, to `position[atom1] + u * L` with `u` the unit vector along the
ORIGINAL direction from `atom1` to `atom2`, while every other atom keeps
its original coordinates; the loop only sets positions and queries the
state: it never minimizes and never steps. -/
theorem C1_bond_scan {n : ℕ} (energyOf : (Fin n → Fin 3 → ℝ) → ℝ)
    (pos : Fin n → Fin 3 → ℝ) (atom1 atom2 : Fin n) (M : ℝ)
    (hM : 0 ≤ M)
    (hdiff : (fun k => pos atom2 k - pos atom1 k) ≠ fun _ => (0 : ℝ)) :
    (BondProfileProtocol.perform_DOF_scan energyOf pos atom1 atom2 M).bond_length.length
      = 100 ∧
    (BondProfileProtocol.perform_DOF_scan energyOf pos atom1 atom2 M).bond_length
      = (List.range 100).map (fun i : ℕ => M * (i : ℝ) / 99) ∧
    List.Chain' (· ≤ ·)
      (BondProfileProtocol.perform_DOF_scan energyOf pos atom1 atom2 M).bond_length ∧
    (0 : ℝ) ∈ (BondProfileProtocol.perform_DOF_scan energyOf pos atom1 atom2 M).bond_length ∧
    M ∈ (BondProfileProtocol.perform_DOF_scan energyOf pos atom1 atom2 M).bond_length ∧
    (∀ L ∈ (BondProfileProtocol.perform_DOF_scan energyOf pos atom1 atom2 M).bond_length,
      0 ≤ L ∧ L ≤ M) ∧
    (BondProfileProtocol.perform_DOF_scan energyOf pos atom1 atom2 M).conformations
      = (BondProfileProtocol.perform_DOF_scan energyOf pos atom1 atom2 M).bond_length.map
          (fun L => BondProfileProtocol.set_bond_length pos atom1 atom2 L) ∧
    (BondProfileProtocol.perform_DOF_scan energyOf pos atom1 atom2 M).potential_energy
      = (BondProfileProtocol.perform_DOF_scan energyOf pos atom1 atom2 M).bond_length.map
          (fun L => energyOf (BondProfileProtocol.set_bond_length pos atom1 atom2 L)) ∧
    (∀ L : ℝ, BondProfileProtocol.set_bond_length pos atom1 atom2 L atom2
      = fun k => pos atom1 k + BondProfileProtocol.normalized_diff pos atom1 atom2 k * L) ∧
    (∀ (L : ℝ) (i : Fin n), i ≠ atom2 →
      BondProfileProtocol.set_bond_length pos atom1 atom2 L i = pos i) ∧
    npLinalgNorm (BondProfileProtocol.normalized_diff pos atom1 atom2) = 1 ∧
    PEvent.minimizeEnergy
      ∉ (BondProfileProtocol.perform_DOF_scan energyOf pos atom1 atom2 M).events ∧
    (∀ k, PEvent.step k
      ∉ (BondProfileProtocol.perform_DOF_scan energyOf pos atom1 atom2 M).events) := by
  have hbl : (BondProfileProtocol.perform_DOF_scan energyOf pos atom1 atom2 M).bond_length
      = npLinspace 0 M 100 := rfl
  have hform : npLinspace 0 M 100 = (List.range 100).map fun i : ℕ => M * (i : ℝ) / 99 := by
    unfold npLinspace
    refine List.map_congr_left fun i hi => ?_
    norm_num
  have hchain : List.Chain' (· ≤ ·) ((List.range 100).map fun i : ℕ => M * (i : ℝ) / 99) := by
    rw [List.chain'_map]
    rw [show (100 : ℕ) = Nat.succ 99 from rfl]
    refine (List.chain'_range_succ _ 99).mpr fun m hm => ?_
    have hcast : (m : ℝ) ≤ ((Nat.succ m : ℕ) : ℝ) := by
      push_cast
      linarith
    have h99 : (0 : ℝ) < 99 := by norm_num
    exact (div_le_div_right h99).mpr (mul_le_mul_of_nonneg_left hcast hM)
  have h0mem : (0 : ℝ) ∈ (List.range 100).map fun i : ℕ => M * (i : ℝ) / 99 :=
    List.mem_map.mpr ⟨0, by simp, by norm_num⟩
  have hMmem : M ∈ (List.range 100).map fun i : ℕ => M * (i : ℝ) / 99 :=
    List.mem_map.mpr ⟨99, by simp, by norm_num⟩
  have hbound : ∀ L ∈ (List.range 100).map fun i : ℕ => M * (i : ℝ) / 99, 0 ≤ L ∧ L ≤ M := by
    intro L hL
    obtain ⟨i, hi, rfl⟩ := List.mem_map.mp hL
    have hi99 : (i : ℝ) ≤ 99 := by
      have h1 : i < 100 := List.mem_range.mp hi
      have h2 : i ≤ 99 := by omega
      exact_mod_cast h2
    constructor
    · positivity
    · rw [div_le_iff (by norm_num : (0 : ℝ) < 99)]
      nlinarith
  refine ⟨by rw [hbl, hform]; simp, by rw [hbl, hform], by rw [hbl, hform]; exact hchain,
    by rw [hbl, hform]; exact h0mem, by rw [hbl, hform]; exact hMmem,
    by rw [hbl, hform]; exact hbound, rfl, rfl, ?_, ?_,
    npLinalgNorm_normalized_diff pos atom1 atom2 hdiff, ?_, ?_⟩
  · intro L
    simp [BondProfileProtocol.set_bond_length]
  · intro L i hi
    simp [BondProfileProtocol.set_bond_length, hi]
  · simp [BondProfileProtocol.perform_DOF_scan, List.mem_flatten]
  · intro k
    simp [BondProfileProtocol.perform_DOF_scan, List.mem_flatten]

/-- C1 witness: the scan statement evaluated on the diatomic example with
`bond_length_max = 2`. -/
theorem C1_bond_scan_witness :
    ((0 : ℝ) ≤ 2 ∧ (fun k => pos2 1 k - pos2 0 k) ≠ fun _ => (0 : ℝ)) ∧
    ((BondProfileProtocol.perform_DOF_scan zeroEnergy pos2 0 1 2).bond_length.length = 100 ∧
      (BondProfileProtocol.perform_DOF_scan zeroEnergy pos2 0 1 2).bond_length
        = (List.range 100).map (fun i : ℕ => (2 : ℝ) * (i : ℝ) / 99) ∧
      List.Chain' (· ≤ ·)
        (BondProfileProtocol.perform_DOF_scan zeroEnergy pos2 0 1 2).bond_length ∧
      (0 : ℝ) ∈ (BondProfileProtocol.perform_DOF_scan zeroEnergy pos2 0 1 2).bond_length ∧
      (2 : ℝ) ∈ (BondProfileProtocol.perform_DOF_scan zeroEnergy pos2 0 1 2).bond_length ∧
      (∀ L ∈ (BondProfileProtocol.perform_DOF_scan zeroEnergy pos2 0 1 2).bond_length,
        0 ≤ L ∧ L ≤ 2) ∧
      (BondProfileProtocol.perform_DOF_scan zeroEnergy pos2 0 1 2).conformations
        = (BondProfileProtocol.perform_DOF_scan zeroEnergy pos2 0 1 2).bond_length.map
            (fun L => BondProfileProtocol.set_bond_length pos2 0 1 L) ∧
      (BondProfileProtocol.perform_DOF_scan zeroEnergy pos2 0 1 2).potential_energy
        = (BondProfileProtocol.perform_DOF_scan zeroEnergy pos2 0 1 2).bond_length.map
            (fun L => zeroEnergy (BondProfileProtocol.set_bond_length pos2 0 1 L)) ∧
      (∀ L : ℝ, BondProfileProtocol.set_bond_length pos2 0 1 L 1
        = fun k => pos2 0 k + BondProfileProtocol.normalized_diff pos2 0 1 k * L) ∧
      (∀ (L : ℝ) (i : Fin 2), i ≠ 1 →
        BondProfileProtocol.set_bond_length pos2 0 1 L i = pos2 i) ∧
      npLinalgNorm (BondProfileProtocol.normalized_diff pos2 0 1) = 1 ∧
      PEvent.minimizeEnergy
        ∉ (BondProfileProtocol.perform_DOF_scan zeroEnergy pos2 0 1 2).events ∧
      (∀ k, PEvent.step k
        ∉ (BondProfileProtocol.perform_DOF_scan zeroEnergy pos2 0 1 2).events)) :=
  ⟨⟨by norm_num, pos2_diff_ne_zero⟩,
    C1_bond_scan zeroEnergy pos2 0 1 2 (by norm_num) pos2_diff_ne_zero⟩

/-- C9 (amended): at sample length 0 the repositioned atom is placed at the
FIRST atom's original coordinate (the rigid-repositioning formula evaluates
to `position[atom1]`), every other atom keeps its coordinates, and
`bond_length_max = 0` yields 100 degenerate samples, all of length 0, each
with that same conformation. -/
theorem C9_zero_length_sample {n : ℕ} (energyOf : (Fin n → Fin 3 → ℝ) → ℝ)
    (pos : Fin n → Fin 3 → ℝ) (atom1 atom2 : Fin n)
    (hdiff : (fun k => pos atom2 k - pos atom1 k) ≠ fun _ => (0 : ℝ)) :
    BondProfileProtocol.set_bond_length pos atom1 atom2 0 atom2 = pos atom1 ∧
    (∀ i, i ≠ atom2 → BondProfileProtocol.set_bond_length pos atom1 atom2 0 i = pos i) ∧
    (BondProfileProtocol.perform_DOF_scan energyOf pos atom1 atom2 0).bond_length
      = List.replicate 100 (0 : ℝ) ∧
    (BondProfileProtocol.perform_DOF_scan energyOf pos atom1 atom2 0).bond_length.length
      = 100 ∧
    (BondProfileProtocol.perform_DOF_scan energyOf pos atom1 atom2 0).conformations
      = List.replicate 100 (BondProfileProtocol.set_bond_length pos atom1 atom2 0) := by
  have hsamp : npLinspace 0 0 100 = List.replicate 100 (0 : ℝ) := by
    unfold npLinspace
    rw [List.eq_replicate]
    constructor
    · simp
    · intro b hb
      obtain ⟨i, hi, rfl⟩ := List.mem_map.mp hb
      norm_num
  have hbl : (BondProfileProtocol.perform_DOF_scan energyOf pos atom1 atom2 0).bond_length
      = npLinspace 0 0 100 := rfl
  have hconf : (BondProfileProtocol.perform_DOF_scan energyOf pos atom1 atom2 0).conformations
      = (npLinspace 0 0 100).map
          (fun L => BondProfileProtocol.set_bond_length pos atom1 atom2 L) := rfl
  refine ⟨?_, ?_, by rw [hbl, hsamp], by rw [hbl, hsamp]; simp,
    by rw [hconf, hsamp, List.map_replicate]⟩
  · funext k
    simp [BondProfileProtocol.set_bond_length]
  · intro i hi
    simp [BondProfileProtocol.set_bond_length, hi]

/-- C9 witness: the amended statement evaluated on the diatomic example. -/
theorem C9_zero_length_sample_witness :
    ((fun k => pos2 1 k - pos2 0 k) ≠ fun _ => (0 : ℝ)) ∧
    (BondProfileProtocol.set_bond_length pos2 0 1 0 1 = pos2 0 ∧
      (∀ i, i ≠ 1 → BondProfileProtocol.set_bond_length pos2 0 1 0 i = pos2 i) ∧
      (BondProfileProtocol.perform_DOF_scan zeroEnergy pos2 0 1 0).bond_length
        = List.replicate 100 (0 : ℝ) ∧
      (BondProfileProtocol.perform_DOF_scan zeroEnergy pos2 0 1 0).bond_length.length = 100 ∧
      (BondProfileProtocol.perform_DOF_scan zeroEnergy pos2 0 1 0).conformations
        = List.replicate 100 (BondProfileProtocol.set_bond_length pos2 0 1 0)) :=
  ⟨pos2_diff_ne_zero, C9_zero_length_sample zeroEnergy pos2 0 1 pos2_diff_ne_zero⟩

/-- C9 counterexample: on the diatomic example (atom 0 at the origin,
atom 1 at `(1,0,0)`) the sample at length 0 places atom 1 at coordinate 0
(atom 0's position), not at its own original coordinate 1. -/
theorem C9_counterexample_atom_at_first_atom :
    BondProfileProtocol.set_bond_length pos2 0 1 0 1 0 = 0 ∧
    pos2 1 0 = 1 ∧
    BondProfileProtocol.set_bond_length pos2 0 1 0 1 0 ≠ pos2 1 0 := by
  refine ⟨?_, ?_, ?_⟩ <;> norm_num [BondProfileProtocol.set_bond_length, pos2]

end GuardOwl
